import Mathlib

/-!
Verification of the langroid web-search aggregation layer
(`langroid/parsing/web_search.py` and
`langroid/agent/tools/metaphor_search_tool.py`).

Shallow embedding conventions:
* Python strings are `List Char` (`PyStr`); Python slicing `s[:n]` with a
  nonnegative bound is `List.take`.
* Network effects are oracle parameters: `fetchText link` stands for the
  visible text extracted from the page at `link` (the result of
  `" ".join(soup.stripped_strings)` on `requests.get(link).text`);
  `post req` stands for `json.loads(requests.post(...).text)` and returns
  `none` when the response body is not valid JSON; `cseExec` stands for
  `service.cse().list(...).execute()` of the Google client.
* Every outbound HTTP request performed by the embedded code is recorded in
  a `List NetworkCall` trace returned alongside the result, so that
  "zero network calls" claims are statable.
* Python exceptions become `Except PyError`; the spec's abstract error
  taxonomy (ConfigurationError / UpstreamError) is mapped onto the concrete
  exception classes the code raises via `isConfigurationError` /
  `isUpstreamError`.
-/

/-- A Python string, as a list of characters. -/
abbrev PyStr := List Char

/-- Coerce a Lean string literal to a `PyStr`. -/
def lit (s : String) : PyStr := s.data

/-- Concrete Python exception classes raised by the code under test.
`valueError` is the `ValueError` of `metaphor_search`'s key check (the
spec's ConfigurationError); `jsonDecodeError` is `json.JSONDecodeError`
from `json.loads`; `keyError`/`typeError` arise from subscripting the
parsed JSON; `httpError` is `googleapiclient`'s `HttpError` from
`execute()`. -/
inductive PyError where
  | valueError : PyStr → PyError
  | jsonDecodeError : PyError
  | keyError : PyStr → PyError
  | typeError : PyError
  | httpError : PyStr → PyError
deriving DecidableEq, Repr

/-- The spec's ConfigurationError category: the exception the code raises
on a missing credential, which in the source is a `ValueError`. -/
def isConfigurationError : PyError → Bool
  | .valueError _ => true
  | _ => false

/-- The spec's UpstreamError category: any exception arising from the
provider response (undecodable JSON, missing/ill-typed fields, HTTP
failure of the provider call). -/
def isUpstreamError : PyError → Bool
  | .valueError _ => false
  | _ => true

/-- A JSON value, as produced by `json.loads` / the Google client.
`other` abstracts numbers, booleans and null, which the code under test
never inspects. -/
inductive Json where
  | str : PyStr → Json
  | arr : List Json → Json
  | obj : List (PyStr × Json) → Json
  | other : Json

/-- First-match field lookup in a JSON object's field list. -/
def lookupField : List (PyStr × Json) → PyStr → Option Json
  | [], _ => none
  | (k, v) :: rest, key => if k = key then some v else lookupField rest key

/-- Python subscript `j[key]` on a parsed JSON value, `none` when the key
is missing (Python `KeyError`) or the value is not an object (Python
`TypeError`). -/
def jsonLookup : Json → PyStr → Option Json
  | .obj fields, key => lookupField fields key
  | _, _ => none

/-- The uniform result entity of `web_search.py`, fields exactly as set by
`WebSearchResult.__init__`. -/
structure WebSearchResult where
  title : PyStr
  link : PyStr
  max_content_length : Nat
  max_summary_length : Nat
  full_content : PyStr
  summary : PyStr
deriving DecidableEq, Repr

/-- `WebSearchResult.get_full_content`: fetch the page at `link`, extract
its visible text (the `fetchText` oracle), and truncate to
`max_content_length` characters (`text[: self.max_content_length]`). -/
def get_full_content (fetchText : PyStr → PyStr) (link : PyStr)
    (max_content_length : Nat) : PyStr :=
  (fetchText link).take max_content_length

/-- `WebSearchResult.get_summary`:
`self.full_content[: self.max_summary_length]`. -/
def get_summary (full_content : PyStr) (max_summary_length : Nat) : PyStr :=
  full_content.take max_summary_length

/-- `WebSearchResult.__init__`: stores the arguments, computes
`full_content = get_full_content()` then `summary = get_summary()`.
The page fetch inside `get_full_content` is the `fetchText` oracle. -/
def mkWebSearchResult (fetchText : PyStr → PyStr) (title link : PyStr)
    (max_content_length max_summary_length : Nat) : WebSearchResult :=
  let full_content := get_full_content fetchText link max_content_length
  { title := title
    link := link
    max_content_length := max_content_length
    max_summary_length := max_summary_length
    full_content := full_content
    summary := get_summary full_content max_summary_length }

/-- `WebSearchResult.__str__`:
`f"Title: {self.title}\nLink: {self.link}\nSummary: {self.summary}"`. -/
def strOfResult (r : WebSearchResult) : PyStr :=
  lit "Title: " ++ r.title ++ lit "\nLink: " ++ r.link
    ++ lit "\nSummary: " ++ r.summary

/-- `WebSearchResult.to_dict`: the four-entry dict, in insertion order. -/
def to_dict (r : WebSearchResult) : List (PyStr × PyStr) :=
  [(lit "title", r.title), (lit "link", r.link),
   (lit "summary", r.summary), (lit "full_content", r.full_content)]

/-- Python dict lookup on the string-valued dict returned by `to_dict`. -/
def lookupStrField : List (PyStr × PyStr) → PyStr → Option PyStr
  | [], _ => none
  | (k, v) :: rest, key => if k = key then some v else lookupStrField rest key

/-- One outbound HTTP request made by the embedded code. -/
inductive NetworkCall where
  /-- `requests.post(url, json=payload, headers=headers)` in
  `metaphor_search`: records the payload query and result count and the
  `x-api-key` header. -/
  | metaphorPost : PyStr → Int → PyStr → NetworkCall
  /-- `requests.get(self.link)` inside `WebSearchResult.get_full_content`. -/
  | pageGet : PyStr → NetworkCall
  /-- `service.cse().list(q=query, cx=cse_id, num=num_results).execute()`
  in `google_search`: records the developer key, the cse id, the query and
  the result count (credentials may be absent). -/
  | googleCse : Option PyStr → Option PyStr → PyStr → Int → NetworkCall
deriving DecidableEq, Repr

/-- Extraction of the title and url fields of one raw hit, as done by the
comprehension `WebSearchResult(result["title"], result[urlKey], ...)`:
a missing key raises `KeyError`, a non-string field (over which the Python
code would only fail later, at `requests.get`) is modelled as `TypeError`.
`urlKey` is `"url"` for `metaphor_search` and `"link"` for `google_search`. -/
def extractHit (urlKey : PyStr) (j : Json) : Except PyError (PyStr × PyStr) :=
  match jsonLookup j (lit "title") with
  | none => .error (.keyError (lit "title"))
  | some (.str t) =>
    match jsonLookup j urlKey with
    | none => .error (.keyError urlKey)
    | some (.str u) => .ok (t, u)
    | some _ => .error .typeError
  | some _ => .error .typeError

/-- The list comprehension
`[WebSearchResult(result["title"], result[urlKey], 3500, 300) for result in raw_results]`:
hits are normalized left to right, each successful construction performing
one page fetch (`pageGet`); the first failing extraction aborts the whole
comprehension (its page is not fetched, nor any later one). -/
def buildResults (fetchText : PyStr → PyStr) (urlKey : PyStr) :
    List Json → Except PyError (List WebSearchResult) × List NetworkCall
  | [] => (.ok [], [])
  | j :: js =>
    match extractHit urlKey j with
    | .error e => (.error e, [])
    | .ok (t, u) =>
      let r := mkWebSearchResult fetchText t u 3500 300
      match buildResults fetchText urlKey js with
      | (.ok rs, calls) => (.ok (r :: rs), .pageGet u :: calls)
      | (.error e, calls) => (.error e, .pageGet u :: calls)

/-- The message of the `ValueError` raised by `metaphor_search` when the
API key is missing. -/
def metaphorKeyMissingMsg : PyStr :=
  lit "METAPHOR_API_KEY is not set. Please set the METAPHOR_API_KEY environment variable."

/-- `metaphor_search(query, num_results)`.

`env` is `os.getenv` (after `load_dotenv()`): `none` when the variable is
absent. The code checks `if not api_key:` — true for an absent key and for
any falsy value, in particular the empty string — and raises `ValueError`
before building the request. Otherwise it POSTs
`{"query": query, "numResults": num_results}` with header
`x-api-key: api_key`; `post req = none` models a response body that
`json.loads` cannot parse (`json.JSONDecodeError`); then
`json.loads(response.text)["results"]` raises `KeyError` when the parsed
object lacks a `results` field and `TypeError` when the parsed value is
not an object (or `results` is not iterable as hit records); finally the
comprehension builds one `WebSearchResult` per raw hit, in order.
Returns the result (or the exception) together with the trace of network
calls made. -/
def metaphor_search (env : PyStr → Option PyStr)
    (post : NetworkCall → Option Json) (fetchText : PyStr → PyStr)
    (query : PyStr) (num_results : Int) :
    Except PyError (List WebSearchResult) × List NetworkCall :=
  let api_key? := env (lit "METAPHOR_API_KEY")
  match api_key? with
  | none => (.error (.valueError metaphorKeyMissingMsg), [])
  | some api_key =>
    if api_key = [] then (.error (.valueError metaphorKeyMissingMsg), [])
    else
      let req := NetworkCall.metaphorPost query num_results api_key
      match post req with
      | none => (.error .jsonDecodeError, [req])
      | some body =>
        match body with
        | .obj fields =>
          match lookupField fields (lit "results") with
          | none => (.error (.keyError (lit "results")), [req])
          | some (.arr rawResults) =>
            let built := buildResults fetchText (lit "url") rawResults
            (built.1, req :: built.2)
          | some _ => (.error .typeError, [req])
        | _ => (.error .typeError, [req])

/-- `google_search(query, num_results)`.

The code reads `GOOGLE_API_KEY` and `GOOGLE_CSE_ID` from the environment
and passes them straight into
`build("customsearch", "v1", developerKey=api_key)` and
`service.cse().list(q=query, cx=cse_id, num=num_results).execute()`
without any presence check: the CSE network call is issued
unconditionally, with `none` standing for absent credentials. `cseExec`
models `execute()`: an `Except.error` is googleapiclient's `HttpError`
(non-success HTTP status); a successful response is subscripted with
`["items"]` (`KeyError` when the field is missing, `TypeError` when the
response is not an object), and the items are normalized in order, using
each item's `link` field as the url. -/
def google_search (env : PyStr → Option PyStr)
    (cseExec : NetworkCall → Except PyError Json) (fetchText : PyStr → PyStr)
    (query : PyStr) (num_results : Int) :
    Except PyError (List WebSearchResult) × List NetworkCall :=
  let api_key := env (lit "GOOGLE_API_KEY")
  let cse_id := env (lit "GOOGLE_CSE_ID")
  let call := NetworkCall.googleCse api_key cse_id query num_results
  match cseExec call with
  | .error e => (.error e, [call])
  | .ok body =>
    match body with
    | .obj fields =>
      match lookupField fields (lit "items") with
      | none => (.error (.keyError (lit "items")), [call])
      | some (.arr rawResults) =>
        let built := buildResults fetchText (lit "link") rawResults
        (built.1, call :: built.2)
      | some _ => (.error .typeError, [call])
    | _ => (.error .typeError, [call])

/-- The serialization step of `MetaphorSearchTool.handle`:
`"\n\n".join(str(result) for result in search_results)`. -/
def handleSerialize (search_results : List WebSearchResult) : PyStr :=
  List.intercalate (lit "\n\n") (search_results.map strOfResult)

/-- `MetaphorSearchTool.handle`: runs
`metaphor_search(self.query, self.num_results)` and joins the serialized
results with two newlines; a raised exception propagates. -/
def MetaphorSearchTool.handle (env : PyStr → Option PyStr)
    (post : NetworkCall → Option Json) (fetchText : PyStr → PyStr)
    (query : PyStr) (num_results : Int) :
    Except PyError PyStr × List NetworkCall :=
  let out := metaphor_search env post fetchText query num_results
  (out.1.map handleSerialize, out.2)

/-- The spec's description of the joined output, written from its words:
each block appears in order with exactly one blank line (two newlines)
between consecutive blocks. Used as the comparison point for the
refinement claim about `handleSerialize`. -/
def specJoinBlocks : List PyStr → PyStr
  | [] => []
  | [b] => b
  | b :: bs => b ++ lit "\n\n" ++ specJoinBlocks bs

/-! ## Theorems -/

/-- C1: For every `WebSearchResult` constructed with any title, link,
`max_content_length` and `max_summary_length`, the `summary` field equals
`full_content[:max_summary_length]`; hence `summary` is always a prefix of
`full_content` and `len(summary) <= max_summary_length`. -/
theorem summary_truncates_full_content (fetchText : PyStr → PyStr)
    (title link : PyStr) (mcl msl : Nat) :
    (mkWebSearchResult fetchText title link mcl msl).summary
      = (mkWebSearchResult fetchText title link mcl msl).full_content.take msl
    ∧ (mkWebSearchResult fetchText title link mcl msl).summary
        <+: (mkWebSearchResult fetchText title link mcl msl).full_content
    ∧ (mkWebSearchResult fetchText title link mcl msl).summary.length ≤ msl := by
  refine ⟨rfl, ?_, ?_⟩
  · exact List.take_prefix _ _
  · simp [mkWebSearchResult, get_summary, List.length_take]

/-- C2: For every page whose extracted visible text is `t`, `full_content`
is `t` truncated to `max_content_length` characters: a prefix of `t`, of
length at most `max_content_length`, and of length exactly
`max_content_length` whenever `t` is at least that long. -/
theorem full_content_truncates_page_text (fetchText : PyStr → PyStr)
    (link : PyStr) (mcl : Nat) :
    get_full_content fetchText link mcl <+: fetchText link
    ∧ (get_full_content fetchText link mcl).length ≤ mcl
    ∧ (mcl ≤ (fetchText link).length →
        (get_full_content fetchText link mcl).length = mcl) := by
  refine ⟨List.take_prefix _ _, ?_, ?_⟩
  · simp [get_full_content, List.length_take]
  · intro h
    simp [get_full_content, List.length_take]
    omega

/-- Witness for C2, scenario D of the spec: limit 10, page text of 15
characters: the truncated content has length exactly 10 and is a prefix. -/
theorem full_content_truncates_page_text_witness :
    get_full_content (fun _ => lit "abcdefghijklmno") (lit "L") 10
        <+: (fun (_ : PyStr) => lit "abcdefghijklmno") (lit "L")
    ∧ (get_full_content (fun _ => lit "abcdefghijklmno") (lit "L") 10).length ≤ 10
    ∧ (10 ≤ ((fun (_ : PyStr) => lit "abcdefghijklmno") (lit "L") : PyStr).length →
        (get_full_content (fun _ => lit "abcdefghijklmno") (lit "L") 10).length = 10) :=
  full_content_truncates_page_text (fun _ => lit "abcdefghijklmno") (lit "L") 10

/-- C7: Normalization is deterministic: two normalizations of the same raw
hit with the same limits, whose page fetches return the same body, yield
results with identical title, link, full_content and summary fields. -/
theorem normalize_deterministic (fetch1 fetch2 : PyStr → PyStr)
    (title link : PyStr) (mcl msl : Nat) (h : fetch1 link = fetch2 link) :
    (mkWebSearchResult fetch1 title link mcl msl).title
      = (mkWebSearchResult fetch2 title link mcl msl).title
    ∧ (mkWebSearchResult fetch1 title link mcl msl).link
      = (mkWebSearchResult fetch2 title link mcl msl).link
    ∧ (mkWebSearchResult fetch1 title link mcl msl).full_content
      = (mkWebSearchResult fetch2 title link mcl msl).full_content
    ∧ (mkWebSearchResult fetch1 title link mcl msl).summary
      = (mkWebSearchResult fetch2 title link mcl msl).summary := by
  refine ⟨rfl, rfl, ?_, ?_⟩ <;>
    simp [mkWebSearchResult, get_full_content, get_summary, h]

/-- Witness for C7 at a concrete hit and two fetch oracles that agree on
the hit's url. -/
theorem normalize_deterministic_witness :
    (mkWebSearchResult (fun _ => lit "page body") (lit "T") (lit "U") 3500 300).title
      = (mkWebSearchResult (fun u => if u = lit "U" then lit "page body" else lit "other")
          (lit "T") (lit "U") 3500 300).title
    ∧ (mkWebSearchResult (fun _ => lit "page body") (lit "T") (lit "U") 3500 300).link
      = (mkWebSearchResult (fun u => if u = lit "U" then lit "page body" else lit "other")
          (lit "T") (lit "U") 3500 300).link
    ∧ (mkWebSearchResult (fun _ => lit "page body") (lit "T") (lit "U") 3500 300).full_content
      = (mkWebSearchResult (fun u => if u = lit "U" then lit "page body" else lit "other")
          (lit "T") (lit "U") 3500 300).full_content
    ∧ (mkWebSearchResult (fun _ => lit "page body") (lit "T") (lit "U") 3500 300).summary
      = (mkWebSearchResult (fun u => if u = lit "U" then lit "page body" else lit "other")
          (lit "T") (lit "U") 3500 300).summary :=
  normalize_deterministic (fun _ => lit "page body")
    (fun u => if u = lit "U" then lit "page body" else lit "other")
    (lit "T") (lit "U") 3500 300 (by decide)

/-- C10: `to_dict` returns a dict with exactly the four keys `title`,
`link`, `summary`, `full_content`, whose values are the corresponding
fields unchanged — in particular it exposes `full_content`. -/
theorem to_dict_exposes_four_fields (r : WebSearchResult) :
    (to_dict r).map Prod.fst
      = [lit "title", lit "link", lit "summary", lit "full_content"]
    ∧ ((to_dict r).map Prod.fst).Nodup
    ∧ lookupStrField (to_dict r) (lit "title") = some r.title
    ∧ lookupStrField (to_dict r) (lit "link") = some r.link
    ∧ lookupStrField (to_dict r) (lit "summary") = some r.summary
    ∧ lookupStrField (to_dict r) (lit "full_content") = some r.full_content := by
  refine ⟨rfl, ?_, rfl, rfl, rfl, rfl⟩
  show ([lit "title", lit "link", lit "summary", lit "full_content"]).Nodup
  decide

/-- C3: If `METAPHOR_API_KEY` is absent from the environment,
`metaphor_search` raises its configuration error (a `ValueError`) and the
network-call trace is empty: zero HTTP calls are made. -/
theorem metaphor_missing_key_no_network (env : PyStr → Option PyStr)
    (post : NetworkCall → Option Json) (fetchText : PyStr → PyStr)
    (query : PyStr) (num_results : Int)
    (h : env (lit "METAPHOR_API_KEY") = none) :
    metaphor_search env post fetchText query num_results
      = (.error (.valueError metaphorKeyMissingMsg), [])
    ∧ isConfigurationError (PyError.valueError metaphorKeyMissingMsg) = true := by
  refine ⟨?_, rfl⟩
  simp [metaphor_search, h]

/-- Witness for C3: a concrete environment with no variables set. -/
theorem metaphor_missing_key_no_network_witness :
    metaphor_search (fun _ => none) (fun _ => none) (fun _ => lit "page")
        (lit "capital of France") 5
      = (.error (.valueError metaphorKeyMissingMsg), [])
    ∧ isConfigurationError (PyError.valueError metaphorKeyMissingMsg) = true :=
  metaphor_missing_key_no_network (fun _ => none) (fun _ => none)
    (fun _ => lit "page") (lit "capital of France") 5 rfl

/-- C9: `metaphor_search` treats an empty-string `METAPHOR_API_KEY`
exactly like an absent one (`if not api_key:` is true for both): it raises
the same `ValueError` with no network call, and its output coincides with
the output under any environment where the key is absent. -/
theorem metaphor_empty_key_like_missing (env envAbsent : PyStr → Option PyStr)
    (post : NetworkCall → Option Json) (fetchText : PyStr → PyStr)
    (query : PyStr) (num_results : Int)
    (h : env (lit "METAPHOR_API_KEY") = some (lit ""))
    (h2 : envAbsent (lit "METAPHOR_API_KEY") = none) :
    metaphor_search env post fetchText query num_results
      = (.error (.valueError metaphorKeyMissingMsg), [])
    ∧ metaphor_search env post fetchText query num_results
      = metaphor_search envAbsent post fetchText query num_results := by
  have hnil : lit "" = [] := rfl
  constructor
  · simp [metaphor_search, h, hnil]
  · simp [metaphor_search, h, h2, hnil]

/-- Witness for C9: the key set to the empty string versus not set at
all. -/
theorem metaphor_empty_key_like_missing_witness :
    metaphor_search (fun k => if k = lit "METAPHOR_API_KEY" then some (lit "") else none)
        (fun _ => none) (fun _ => lit "page") (lit "q") 3
      = (.error (.valueError metaphorKeyMissingMsg), [])
    ∧ metaphor_search (fun k => if k = lit "METAPHOR_API_KEY" then some (lit "") else none)
        (fun _ => none) (fun _ => lit "page") (lit "q") 3
      = metaphor_search (fun _ => none) (fun _ => none) (fun _ => lit "page") (lit "q") 3 :=
  metaphor_empty_key_like_missing
    (fun k => if k = lit "METAPHOR_API_KEY" then some (lit "") else none)
    (fun _ => none) (fun _ => none) (fun _ => lit "page") (lit "q") 3
    (by decide) rfl

/-- C8: With the API key present, if the response body of the
content-discovery POST cannot be parsed as JSON, or parses to JSON lacking
a `results` field, `metaphor_search` raises an upstream error instead of
returning a result list. -/
theorem metaphor_bad_response_upstream_error (env : PyStr → Option PyStr)
    (post : NetworkCall → Option Json) (fetchText : PyStr → PyStr)
    (query : PyStr) (num_results : Int) (api_key : PyStr)
    (henv : env (lit "METAPHOR_API_KEY") = some api_key)
    (hne : api_key ≠ []) :
    (post (.metaphorPost query num_results api_key) = none →
      (metaphor_search env post fetchText query num_results).1
          = .error .jsonDecodeError
      ∧ isUpstreamError PyError.jsonDecodeError = true)
    ∧ (∀ body, post (.metaphorPost query num_results api_key) = some body →
        jsonLookup body (lit "results") = none →
        ∃ e, (metaphor_search env post fetchText query num_results).1 = .error e
          ∧ isUpstreamError e = true) := by
  constructor
  · intro hpost
    refine ⟨?_, rfl⟩
    simp [metaphor_search, henv, hne, hpost]
  · intro body hpost hlook
    cases body with
    | obj fields =>
      refine ⟨.keyError (lit "results"), ?_, rfl⟩
      simp [jsonLookup] at hlook
      simp [metaphor_search, henv, hne, hpost, hlook]
    | str s =>
      refine ⟨.typeError, ?_, rfl⟩
      simp [metaphor_search, henv, hne, hpost]
    | arr xs =>
      refine ⟨.typeError, ?_, rfl⟩
      simp [metaphor_search, henv, hne, hpost]
    | other =>
      refine ⟨.typeError, ?_, rfl⟩
      simp [metaphor_search, henv, hne, hpost]

/-- Witness for C8: key present, response body unparseable as JSON. -/
theorem metaphor_bad_response_upstream_error_witness :
    ((fun (_ : NetworkCall) => (none : Option Json)) (.metaphorPost (lit "q") 2 (lit "k")) = none →
      (metaphor_search (fun k => if k = lit "METAPHOR_API_KEY" then some (lit "k") else none)
          (fun _ => none) (fun _ => lit "page") (lit "q") 2).1
          = .error .jsonDecodeError
      ∧ isUpstreamError PyError.jsonDecodeError = true)
    ∧ (∀ body, (fun (_ : NetworkCall) => (none : Option Json)) (.metaphorPost (lit "q") 2 (lit "k")) = some body →
        jsonLookup body (lit "results") = none →
        ∃ e, (metaphor_search (fun k => if k = lit "METAPHOR_API_KEY" then some (lit "k") else none)
            (fun _ => none) (fun _ => lit "page") (lit "q") 2).1 = .error e
          ∧ isUpstreamError e = true) :=
  metaphor_bad_response_upstream_error
    (fun k => if k = lit "METAPHOR_API_KEY" then some (lit "k") else none)
    (fun _ => none) (fun _ => lit "page") (lit "q") 2 (lit "k")
    (by decide) (by decide)

/-- `"\n\n".join` agrees with the spec's description of the join: blocks
in order with exactly one blank line between consecutive blocks. -/
theorem intercalate_two_newlines_eq_specJoin (bs : List PyStr) :
    List.intercalate (lit "\n\n") bs = specJoinBlocks bs := by
  induction bs with
  | nil => rfl
  | cons b bs ih =>
    cases bs with
    | nil => simp [List.intercalate, specJoinBlocks]
    | cons c cs =>
      rw [specJoinBlocks, ← ih]
      · simp [List.intercalate, List.intersperse]
      · simp

/-- C5: On a successful search, `handle` returns the serialized blocks
`"Title: ...\nLink: ...\nSummary: ..."`, one per normalized result and in
order, joined with exactly one blank line (two newlines) between
consecutive blocks; there are exactly as many blocks as results. -/
theorem handle_joins_blocks_with_blank_line (env : PyStr → Option PyStr)
    (post : NetworkCall → Option Json) (fetchText : PyStr → PyStr)
    (query : PyStr) (num_results : Int)
    (results : List WebSearchResult) (calls : List NetworkCall)
    (hok : metaphor_search env post fetchText query num_results
      = (.ok results, calls)) :
    (MetaphorSearchTool.handle env post fetchText query num_results).1
      = .ok (specJoinBlocks (results.map strOfResult))
    ∧ (results.map strOfResult).length = results.length := by
  refine ⟨?_, by simp⟩
  simp [MetaphorSearchTool.handle, hok, Except.map, handleSerialize,
    intercalate_two_newlines_eq_specJoin]

/-- Concrete environment for witnesses: only `METAPHOR_API_KEY` is set. -/
def envW : PyStr → Option PyStr :=
  fun k => if k = lit "METAPHOR_API_KEY" then some (lit "k") else none

/-- Two concrete raw hits as returned by the content-discovery backend. -/
def hitsW : List Json :=
  [Json.obj [(lit "title", Json.str (lit "Paris")),
             (lit "url", Json.str (lit "http://example.com/paris"))],
   Json.obj [(lit "title", Json.str (lit "Lyon")),
             (lit "url", Json.str (lit "http://example.com/lyon"))]]

/-- Concrete parsed response body fields holding `hitsW` under `results`. -/
def fieldsW : List (PyStr × Json) := [(lit "results", Json.arr hitsW)]

/-- Concrete POST oracle answering with `fieldsW`. -/
def postW : NetworkCall → Option Json := fun _ => some (Json.obj fieldsW)

/-- Concrete page-text oracle. -/
def fetchW : PyStr → PyStr := fun _ => lit "Paris is the capital of France."

/-- The results `metaphor_search` produces from `hitsW`. -/
def resultsW : List WebSearchResult :=
  [mkWebSearchResult fetchW (lit "Paris") (lit "http://example.com/paris") 3500 300,
   mkWebSearchResult fetchW (lit "Lyon") (lit "http://example.com/lyon") 3500 300]

/-- The network calls `metaphor_search` makes on the witness run. -/
def callsW : List NetworkCall :=
  [.metaphorPost (lit "q") 2 (lit "k"),
   .pageGet (lit "http://example.com/paris"),
   .pageGet (lit "http://example.com/lyon")]

/-- Witness for C5 on a concrete two-hit search. -/
theorem handle_joins_blocks_with_blank_line_witness :
    (MetaphorSearchTool.handle envW postW fetchW (lit "q") 2).1
      = .ok (specJoinBlocks (resultsW.map strOfResult))
    ∧ (resultsW.map strOfResult).length = resultsW.length :=
  handle_joins_blocks_with_blank_line envW postW fetchW (lit "q") 2
    resultsW callsW rfl

/-- In a successful run of the normalization comprehension, there are as
many results as raw hits and the i-th result is the normalization of the
i-th raw hit. -/
theorem buildResults_ok_index (fetchText : PyStr → PyStr) (urlKey : PyStr)
    (js : List Json) :
    ∀ rs : List WebSearchResult,
      (buildResults fetchText urlKey js).1 = .ok rs →
      rs.length = js.length ∧
      ∀ i (hi : i < js.length), ∃ t u,
        extractHit urlKey (js.get ⟨i, hi⟩) = .ok (t, u) ∧
        rs.get? i = some (mkWebSearchResult fetchText t u 3500 300) := by
  induction js with
  | nil =>
    intro rs h
    simp [buildResults] at h
    subst h
    simp
  | cons j js ih =>
    intro rs h
    cases hext : extractHit urlKey j with
    | error e =>
      rw [buildResults, hext] at h
      simp at h
    | ok p =>
      obtain ⟨t, u⟩ := p
      cases hrec : buildResults fetchText urlKey js with
      | mk res calls =>
        cases res with
        | error e =>
          rw [buildResults, hext, hrec] at h
          simp at h
        | ok rs' =>
          rw [buildResults, hext, hrec] at h
          simp at h
          subst h
          obtain ⟨hlen, hidx⟩ := ih rs' (by rw [hrec])
          refine ⟨by simp [hlen], ?_⟩
          intro i hi
          cases i with
          | zero => exact ⟨t, u, hext, rfl⟩
          | succ n =>
            have hn : n < js.length := by simpa using hi
            obtain ⟨t', u', h1, h2⟩ := hidx n hn
            exact ⟨t', u', h1, by simpa using h2⟩

/-- C6: The order of serialized results in the `handle` output equals the
order in which the backend returned the raw hits: on a successful search
over raw hits `hits`, the list of serialized blocks (which C5 shows is
joined verbatim) has, at every index `i`, the serialization of the
normalization of `hits[i]`. -/
theorem metaphor_results_preserve_backend_order (env : PyStr → Option PyStr)
    (post : NetworkCall → Option Json) (fetchText : PyStr → PyStr)
    (query : PyStr) (num_results : Int) (api_key : PyStr)
    (fields : List (PyStr × Json)) (hits : List Json)
    (results : List WebSearchResult) (calls : List NetworkCall)
    (henv : env (lit "METAPHOR_API_KEY") = some api_key)
    (hpost : post (.metaphorPost query num_results api_key)
      = some (.obj fields))
    (hres : lookupField fields (lit "results") = some (.arr hits))
    (hok : metaphor_search env post fetchText query num_results
      = (.ok results, calls)) :
    results.length = hits.length ∧
    ∀ i (hi : i < hits.length), ∃ t u,
      extractHit (lit "url") (hits.get ⟨i, hi⟩) = .ok (t, u) ∧
      (results.map strOfResult).get? i
        = some (strOfResult (mkWebSearchResult fetchText t u 3500 300)) := by
  by_cases hk : api_key = []
  · rw [metaphor_search, henv] at hok
    simp [hk] at hok
  · rw [metaphor_search, henv] at hok
    simp only [hk, if_false, hpost, hres] at hok
    have hbuild : (buildResults fetchText (lit "url") hits).1 = .ok results := by
      have := congrArg Prod.fst hok
      simpa using this
    obtain ⟨hlen, hidx⟩ := buildResults_ok_index fetchText (lit "url") hits
      results hbuild
    refine ⟨hlen, ?_⟩
    intro i hi
    obtain ⟨t, u, h1, h2⟩ := hidx i hi
    refine ⟨t, u, h1, ?_⟩
    rw [List.get?_map, h2]
    rfl

/-- Witness for C6: on the concrete two-hit search, the block at index 1
serializes the normalization of the second raw hit. -/
theorem metaphor_results_preserve_backend_order_witness :
    resultsW.length = hitsW.length ∧
    (resultsW.map strOfResult).get? 1
      = some (strOfResult (mkWebSearchResult fetchW (lit "Lyon")
          (lit "http://example.com/lyon") 3500 300)) := by
  have h := metaphor_results_preserve_backend_order envW postW fetchW
    (lit "q") 2 (lit "k") fieldsW hitsW resultsW callsW rfl rfl rfl rfl
  refine ⟨h.1, ?_⟩
  obtain ⟨t, u, h1, h2⟩ := h.2 1 (by decide)
  have ht : extractHit (lit "url") (hitsW.get ⟨1, by decide⟩)
      = .ok (lit "Lyon", lit "http://example.com/lyon") := rfl
  have h3 : (Except.ok (ε := PyError)
      (lit "Lyon", lit "http://example.com/lyon") : Except PyError (PyStr × PyStr))
      = .ok (t, u) := ht.symm.trans h1
  have h4 : (lit "Lyon", lit "http://example.com/lyon") = (t, u) := by
    injection h3
  have ht' : t = lit "Lyon" := (congrArg Prod.fst h4).symm
  have hu' : u = lit "http://example.com/lyon" := (congrArg Prod.snd h4).symm
  rw [ht', hu'] at h2
  exact h2

/-- An environment with no variables set at all. -/
def envNoneG : PyStr → Option PyStr := fun _ => none

/-- A concrete raw Google hit. -/
def hitG : Json :=
  .obj [(lit "title", .str (lit "T")), (lit "link", .str (lit "L"))]

/-- A CSE oracle answering with a well-formed `items` response. -/
def cseOkG : NetworkCall → Except PyError Json :=
  fun _ => .ok (.obj [(lit "items", .arr [hitG])])

/-- A concrete page-text oracle for the Google run. -/
def fetchG : PyStr → PyStr := fun _ => lit "google page text"

/-- Counterexample to C4: with both `GOOGLE_API_KEY` and `GOOGLE_CSE_ID`
absent, `google_search` does not fail with a configuration error before a
network call — it issues the CSE request anyway (first entry of the
nonempty trace, carrying `none` credentials) and here even returns a
successful result list: the code contains no credential check. -/
theorem google_missing_creds_counterexample :
    envNoneG (lit "GOOGLE_API_KEY") = none
    ∧ envNoneG (lit "GOOGLE_CSE_ID") = none
    ∧ google_search envNoneG cseOkG fetchG (lit "q") 1
        = (.ok [mkWebSearchResult fetchG (lit "T") (lit "L") 3500 300],
           [.googleCse none none (lit "q") 1, .pageGet (lit "L")]) :=
  ⟨rfl, rfl, rfl⟩

/-- C4 amended: `google_search` performs no credential presence check.
For every environment — credentials present or absent — the CSE request is
issued as the first network call of the invocation, carrying exactly the
(possibly absent) `GOOGLE_API_KEY` and `GOOGLE_CSE_ID` values read from
the environment; in particular at least one network call is always made,
and absent credentials never cause a pre-network configuration error. -/
theorem google_search_always_issues_cse_call (env : PyStr → Option PyStr)
    (cseExec : NetworkCall → Except PyError Json) (fetchText : PyStr → PyStr)
    (query : PyStr) (num_results : Int) :
    (google_search env cseExec fetchText query num_results).2.head?
      = some (.googleCse (env (lit "GOOGLE_API_KEY"))
          (env (lit "GOOGLE_CSE_ID")) query num_results) := by
  cases hc : cseExec (NetworkCall.googleCse (env (lit "GOOGLE_API_KEY"))
      (env (lit "GOOGLE_CSE_ID")) query num_results) with
  | error e => simp [google_search, hc]
  | ok body =>
    cases body with
    | obj fields =>
      cases hl : lookupField fields (lit "items") with
      | none => simp [google_search, hc, hl]
      | some j =>
        cases j with
        | str s => simp [google_search, hc, hl]
        | arr xs => simp [google_search, hc, hl]
        | obj f2 => simp [google_search, hc, hl]
        | other => simp [google_search, hc, hl]
    | str s => simp [google_search, hc]
    | arr xs => simp [google_search, hc]
    | other => simp [google_search, hc]
